import Mathlib

/-
  Verification of the illustrator MCP server (src/illustrator/server.py).

  The file shallowly embeds the two request handlers of the server:
  `handle_list_tools` (the static tool catalog) and `handle_call_tool`
  (dispatch to the screen-capture pipeline or the ExtendScript pathway).
  External OS facilities (osascript, screencapture, the PIL decoder and
  JPEG encoder) are modelled as an oracle `ExtWorld` recording their
  outcomes; the handler is a pure function of the request and the oracle,
  returning the produced content blocks together with a trace of the
  external commands issued, the image mode handed to the JPEG encoder,
  and whether the temporary screenshot file still exists on return.
-/

set_option maxRecDepth 100000

namespace Illustrator

/-- Content blocks returned to the MCP client (types.TextContent /
types.ImageContent in the source; EmbeddedResource is never produced). -/
inductive ContentBlock where
  | text (text : String)
  | image (mimeType : String) (data : String)
  deriving DecidableEq, Repr

/-- One property of a JSON input schema: its "type" and "description". -/
structure PropSchema where
  type : String
  description : String
  deriving DecidableEq, Repr

/-- The input schema of a tool: the "type" field, the "properties" object
(as an association list) and the optional "required" array (the capture
tool's schema omits the key, modelled as `none`). -/
structure InputSchema where
  type : String
  properties : List (String × PropSchema)
  required : Option (List String)
  deriving DecidableEq, Repr

/-- A tool definition as advertised by the server. -/
structure Tool where
  name : String
  description : String
  inputSchema : InputSchema
  deriving DecidableEq, Repr

/-- Embedding of `handle_list_tools` (server.py lines 17-42): the static
two-entry tool catalog. -/
def handle_list_tools : List Tool :=
  [ { name := "capture-illustrator"
      description := "Capture the adobe illustrator window"
      inputSchema := { type := "object", properties := [], required := none } },
    { name := "run-illustrator-script"
      description := "Run ExtendScript code in Illustrator. Use \x27app\x27 to access the Illustrator application object."
      inputSchema :=
        { type := "object"
          properties :=
            [("code",
              { type := "string"
                description := "ExtendScript/JavaScript code to execute in Illustrator. It will run on the current document. you only need to make the document once" })]
          required := some ["code"] } } ]

/-- Color modes PIL's PNG decoder can produce for the raw screenshot
("1", "L", "I", "P", "RGB", "RGBA", "LA"). -/
inductive PILMode where
  | one
  | L
  | I
  | P
  | RGB
  | RGBA
  | LA
  deriving DecidableEq, Repr

/-- Whether the mode carries an alpha channel (among PNG-decoder modes,
exactly "RGBA" and "LA" do). -/
def hasAlphaChannel : PILMode → Bool
  | .RGBA => true
  | .LA => true
  | _ => false

/-- The conversion guard of server.py lines 83-84:
`if img.mode in ("RGBA", "LA"): img = img.convert("RGB")`. -/
def convertForJpeg : PILMode → PILMode
  | .RGBA => .RGB
  | .LA => .RGB
  | m => m

/-- Oracle for the capture pipeline's external steps: the exit codes of
the two subprocess calls, whether PIL's decode/encode raises, the mode of
the decoded screenshot, and the bytes the JPEG encoder produces. -/
structure CaptureOutcome where
  activateReturncode : Int
  captureReturncode : Int
  decodeRaises : Bool
  decodedMode : PILMode
  jpegBytes : List Nat
  deriving DecidableEq, Repr

/-- Oracle for the script pathway's osascript call: exit code and the
captured stdout/stderr text. -/
structure ScriptOutcome where
  returncode : Int
  stdout : String
  stderr : String
  deriving DecidableEq, Repr

/-- The combined oracle for one `handle_call_tool` invocation. -/
structure ExtWorld where
  capture : CaptureOutcome
  script : ScriptOutcome
  deriving DecidableEq, Repr

/-- How one `handle_call_tool` invocation terminates: a normal return of
content blocks, a raised ValueError (unknown tool), or an exception
propagating out of the PIL decode/encode step. -/
inductive CallResult where
  | blocks (blocks : List ContentBlock)
  | valueError (msg : String)
  | decodeError
  deriving DecidableEq, Repr

/-- Observable trace of one `handle_call_tool` invocation: its result, the
external commands issued (argv lists, in order), whether the PIL decode
step was reached, the mode of the image handed to the JPEG encoder (if the
save was reached), and whether the temporary screenshot file still exists
after the call (none when the invocation allocated no temporary file). -/
structure CallTrace where
  result : CallResult
  commands : List (List String)
  decodeAttempted : Bool
  savedMode : Option PILMode
  tmpFileExistsAfter : Option Bool
  deriving DecidableEq, Repr

/-- The fixed AppleScript sent before the capture (server.py lines 55-59):
activate Illustrator, wait one second, then activate "Claude". -/
def activate_script : String :=
  "\n                tell application \"Adobe Illustrator\" to activate\n                delay 1\n                tell application \"Claude\" to activate\n            "

/-- argv of the activation subprocess call (server.py line 60). -/
def activateCmd : List String := ["osascript", "-e", activate_script]

/-- argv of the screencapture subprocess call (server.py lines 62-73). -/
def screencaptureCmd (screenshot_path : String) : List String :=
  ["screencapture", "-R", "0,0,960,1080", "-C", "-T", "2", "-x", screenshot_path]

/-- argv of an osascript call running the given script (server.py 121-123). -/
def osascriptCmd (s : String) : List String := ["osascript", "-e", s]

/-- Python `str.replace` restricted to a single-character needle (the only
form server.py uses, on line 112). -/
def pyReplace (needle : Char) (repl : List Char) : List Char → List Char
  | [] => []
  | c :: rest => (if c = needle then repl else [c]) ++ pyReplace needle repl rest

/-- The escaping of server.py line 112:
`script.replace(chr(34), backslash-quote).replace(newline, backslash-n)`. -/
def escapeScript (s : List Char) : List Char :=
  pyReplace '\n' ['\\', 'n'] (pyReplace '"' ['\\', '"'] s)

/-- The AppleScript template of server.py lines 115-119, with the escaped
script spliced in place of the f-string interpolation. -/
def scriptTemplate (script : String) : String :=
  "\n            tell application \"Adobe Illustrator\"\n                do javascript \"" ++ script ++ "\"\n            end tell\n        "

/-- The base64 alphabet character for a 6-bit value. -/
def b64Char (n : Nat) : Char :=
  ("ABCDEFGHIJKLMNOPQRSTUVWXYZabcdefghijklmnopqrstuvwxyz0123456789+/".data).getD n 'A'

/-- Standard base64 encoding of a byte sequence (base64.b64encode). -/
def b64encode : List Nat → List Char
  | [] => []
  | [a] => [b64Char (a / 4), b64Char (a % 4 * 16), '=', '=']
  | [a, b] => [b64Char (a / 4), b64Char (a % 4 * 16 + b / 16), b64Char (b % 16 * 4), '=']
  | a :: b :: c :: rest =>
    b64Char (a / 4) :: b64Char (a % 4 * 16 + b / 16) :: b64Char (b % 16 * 4 + c / 64) ::
      b64Char (c % 64) :: b64encode rest

/-- The finally block of server.py lines 104-106: delete the temporary
file if it exists; returns whether the path exists afterwards. -/
def cleanupTmp (fileExists : Bool) : Bool :=
  if fileExists then false else fileExists

/-- Embedding of the capture branch (server.py lines 49-106).
`tempfile.NamedTemporaryFile(delete=False)` creates the file, so the
temporary path exists from allocation onward; the try body issues the
activation and screencapture commands, branches on the screencapture exit
status and on whether PIL raises, and the finally block always runs
`cleanupTmp` on the path. -/
def capturePipeline (screenshot_path : String) (w : CaptureOutcome) : CallTrace :=
  if w.captureReturncode ≠ 0 then
    { result := .blocks [.text "Failed to capture screenshot"]
      commands := [activateCmd, screencaptureCmd screenshot_path]
      decodeAttempted := false
      savedMode := none
      tmpFileExistsAfter := some (cleanupTmp true) }
  else if w.decodeRaises then
    { result := .decodeError
      commands := [activateCmd, screencaptureCmd screenshot_path]
      decodeAttempted := true
      savedMode := none
      tmpFileExistsAfter := some (cleanupTmp true) }
  else
    { result := .blocks [.image "image/jpeg" ((b64encode w.jpegBytes).asString)]
      commands := [activateCmd, screencaptureCmd screenshot_path]
      decodeAttempted := true
      savedMode := some (convertForJpeg w.decodedMode)
      tmpFileExistsAfter := some (cleanupTmp true) }

/-- Embedding of the script branch past the argument check (server.py
lines 111-136): escape the code, splice it into the AppleScript template,
run osascript with captured output, and classify by exit status
(`if result.stdout:` is Python truthiness, i.e. non-emptiness). -/
def scriptPipeline (code : String) (w : ScriptOutcome) : CallTrace :=
  if w.returncode ≠ 0 then
    { result := .blocks [.text ("Error executing script: " ++ w.stderr)]
      commands := [osascriptCmd (scriptTemplate ((escapeScript code.data).asString))]
      decodeAttempted := false
      savedMode := none
      tmpFileExistsAfter := none }
  else
    { result := .blocks
        [.text (if w.stdout = "" then "Script executed successfully"
          else "Script executed successfully" ++ "\nOutput: " ++ w.stdout)]
      commands := [osascriptCmd (scriptTemplate ((escapeScript code.data).asString))]
      decodeAttempted := false
      savedMode := none
      tmpFileExistsAfter := none }

/-- The guard of server.py line 108, `not arguments or "code" not in
arguments`, collapsed to the code value it admits: `none` when the
arguments mapping is absent, empty, or lacks the "code" key (all of which
take the early "No code provided" return). -/
def codeArg (arguments : Option (List (String × String))) : Option String :=
  match arguments with
  | none => none
  | some l => if l.isEmpty then none else List.lookup "code" l

/-- The early return of server.py line 109: one Text block, no external
process, no temporary file. -/
def noCodeTrace : CallTrace :=
  { result := .blocks [.text "No code provided"]
    commands := []
    decodeAttempted := false
    savedMode := none
    tmpFileExistsAfter := none }

/-- Embedding of `handle_call_tool` (server.py lines 45-139): dispatch on
the tool name; the capture branch never reads `arguments`; unknown names
raise ValueError. `screenshot_path` stands for the fresh unique temporary
path allocated by `tempfile.NamedTemporaryFile`. -/
def handle_call_tool (name : String) (arguments : Option (List (String × String)))
    (screenshot_path : String) (world : ExtWorld) : CallTrace :=
  if name = "capture-illustrator" then
    capturePipeline screenshot_path world.capture
  else if name = "run-illustrator-script" then
    match codeArg arguments with
    | none => noCodeTrace
    | some code => scriptPipeline code world.script
  else
    { result := .valueError ("Unknown tool: " ++ name)
      commands := []
      decodeAttempted := false
      savedMode := none
      tmpFileExistsAfter := none }

/-- Scanner for the body of a double-quoted, single-line AppleScript
string literal. The flag records whether the previous character was an
escaping backslash. In the unescaped state a newline or a dangling end is
invalid, a backslash enters the escaped state, and a quote closes the
literal (valid only when it consumes the whole input). -/
def litScanAux : Bool → List Char → Bool
  | false, [] => false
  | false, c :: rest =>
    if c = '\n' then false
    else if c = '\\' then litScanAux true rest
    else if c = '"' then rest.isEmpty
    else litScanAux false rest
  | true, [] => false
  | true, c :: rest => if c = '\n' then false else litScanAux false rest

/-- `content` embeds between double quotes as a syntactically valid,
single-line quoted string literal: scanning `content` followed by the
closing quote succeeds exactly at the end. -/
def validSingleLineLiteral (content : List Char) : Bool :=
  litScanAux false (content ++ ['"'])

/-- Number of positions of `l` at which `pat` occurs as a substring. -/
def countOccur (pat : List Char) : List Char → Nat
  | [] => 0
  | c :: rest => (if List.isPrefixOf pat (c :: rest) then 1 else 0) + countOccur pat rest

/-- `pat` occurs as a contiguous substring of `l`. -/
def occursIn (pat : List Char) : List Char → Bool
  | [] => List.isPrefixOf pat []
  | c :: rest => List.isPrefixOf pat (c :: rest) || occursIn pat rest

/-- An oracle where every external step succeeds: screencapture exits 0,
PIL decodes an RGBA image, the JPEG encoder returns the two JFIF markers,
and osascript exits 0 with empty output. -/
def world0 : ExtWorld :=
  { capture :=
      { activateReturncode := 0
        captureReturncode := 0
        decodeRaises := false
        decodedMode := .RGBA
        jpegBytes := [255, 216, 255, 217] }
    script := { returncode := 0, stdout := "", stderr := "" } }

/-- An oracle where the osascript run of the script pathway exits 0 with
stdout "ok". -/
def worldOk : ExtWorld :=
  { capture :=
      { activateReturncode := 0
        captureReturncode := 0
        decodeRaises := false
        decodedMode := .RGB
        jpegBytes := [255, 216, 255, 217] }
    script := { returncode := 0, stdout := "ok", stderr := "" } }

/-- An oracle where the screencapture process exits 1. -/
def worldFail : ExtWorld :=
  { capture :=
      { activateReturncode := 0
        captureReturncode := 1
        decodeRaises := false
        decodedMode := .RGB
        jpegBytes := [] }
    script := { returncode := 1, stdout := "", stderr := "boom" } }

/-- Dispatch lemma: a call named "capture-illustrator" runs the capture
pipeline on the allocated path, ignoring the arguments. -/
lemma call_capture (arguments : Option (List (String × String)))
    (screenshot_path : String) (world : ExtWorld) :
    handle_call_tool "capture-illustrator" arguments screenshot_path world =
      capturePipeline screenshot_path world.capture := rfl

/-- Dispatch lemma: a call named "run-illustrator-script" takes the early
no-code return or runs the script pipeline, by the extracted code value. -/
lemma call_run (arguments : Option (List (String × String)))
    (screenshot_path : String) (world : ExtWorld) :
    handle_call_tool "run-illustrator-script" arguments screenshot_path world =
      (match codeArg arguments with
       | none => noCodeTrace
       | some code => scriptPipeline code world.script) := rfl

/-- C1: for every capture-tool invocation — whatever the arguments, the
allocated temporary path, and the outcomes of the external steps (success,
capture failure, or a decode/encode exception) — the temporary file does
not exist after the call returns. -/
theorem C1_capture_cleanup (arguments : Option (List (String × String)))
    (screenshot_path : String) (world : ExtWorld) :
    (handle_call_tool "capture-illustrator" arguments screenshot_path
        world).tmpFileExistsAfter = some false := by
  rw [call_capture]
  unfold capturePipeline
  split
  · rfl
  · split <;> rfl

/-- C2 counterexample: invoked with no arguments (so no `return_to_app`
was supplied), the capture tool still issues the fixed activation script,
which contains a second activation command — `tell application "Claude"
to activate` — so the activation script does not address only the target
application. -/
theorem C2_counterexample :
    (handle_call_tool "capture-illustrator" none "/tmp/shot.png"
        world0).commands.head? = some ["osascript", "-e", activate_script] ∧
    countOccur ("tell application \"").data activate_script.data = 2 ∧
    occursIn ("tell application \"Claude\" to activate").data activate_script.data
      = true := by
  refine ⟨rfl, by decide, by decide⟩

/-- C2 (amended): the window-activation script is a fixed constant,
independent of the arguments: it always contains exactly two activation
commands, the first for the target application "Adobe Illustrator" and
the second for "Claude"; no supplied argument is consulted. -/
theorem C2_activation_amended (arguments : Option (List (String × String)))
    (screenshot_path : String) (world : ExtWorld) :
    (handle_call_tool "capture-illustrator" arguments screenshot_path
        world).commands = [activateCmd, screencaptureCmd screenshot_path] ∧
    countOccur ("to activate").data activate_script.data = 2 ∧
    occursIn ("tell application \"Adobe Illustrator\" to activate").data
      activate_script.data = true ∧
    occursIn ("tell application \"Claude\" to activate").data activate_script.data
      = true := by
  refine ⟨?_, by decide, by decide, by decide⟩
  rw [call_capture]
  unfold capturePipeline
  split
  · rfl
  · split <;> rfl

/-- C10: the capture tool's behaviour is independent of its arguments —
any two invocations with any (possibly absent) argument mappings produce
identical traces (same external commands, and identical content blocks
given the same external-process outcomes), and the fixed activation
script always reactivates "Claude" after the target application. -/
theorem C10_capture_argument_independence
    (args1 args2 : Option (List (String × String)))
    (screenshot_path : String) (world : ExtWorld) :
    handle_call_tool "capture-illustrator" args1 screenshot_path world =
      handle_call_tool "capture-illustrator" args2 screenshot_path world ∧
    occursIn ("tell application \"Claude\" to activate").data activate_script.data
      = true := by
  exact ⟨rfl, by decide⟩

/-- C3 counterexample: the capture tool's schema declares no properties at
all — in particular it does not have one optional string parameter naming
an application to reactivate. -/
theorem C3_counterexample :
    handle_list_tools.head?.map (fun t => t.inputSchema.properties) = some [] ∧
    ¬ handle_list_tools.head?.map (fun t => t.inputSchema.properties.length)
        = some 1 := by
  refine ⟨rfl, by decide⟩

/-- C3 (amended): the tool registry is a constant returning exactly two
tool definitions: a capture tool whose schema has no required and no
optional parameters at all, and a script tool whose schema has exactly
one parameter, the required string parameter "code" holding the script
source. -/
theorem C3_tool_registry_amended :
    handle_list_tools.length = 2 ∧
    handle_list_tools.map Tool.name =
      ["capture-illustrator", "run-illustrator-script"] ∧
    handle_list_tools.map (fun t => t.inputSchema.required) =
      [none, some ["code"]] ∧
    handle_list_tools.map (fun t => t.inputSchema.properties.map Prod.fst) =
      [[], ["code"]] ∧
    handle_list_tools.map
        (fun t => (List.lookup "code" t.inputSchema.properties).map PropSchema.type) =
      [none, some "string"] := by
  refine ⟨rfl, rfl, rfl, rfl, rfl⟩

/-- C6: when the arguments mapping is absent or lacks the "code" key, the
script tool returns exactly one Text block stating that no code was
provided — a normal return, not a raised error — and issues no external
command. -/
theorem C6_no_code (arguments : Option (List (String × String)))
    (screenshot_path : String) (world : ExtWorld)
    (h : ∀ l, arguments = some l → List.lookup "code" l = none) :
    (handle_call_tool "run-illustrator-script" arguments screenshot_path
        world).result = .blocks [.text "No code provided"] ∧
    (handle_call_tool "run-illustrator-script" arguments screenshot_path
        world).commands = [] := by
  have hc : codeArg arguments = none := by
    cases arguments with
    | none => rfl
    | some l =>
      have hl := h l rfl
      simp [codeArg, hl]
  rw [call_run, hc]
  exact ⟨rfl, rfl⟩

/-- Witness for C6 at an absent arguments mapping. -/
theorem C6_no_code_witness :
    (handle_call_tool "run-illustrator-script" none "/tmp/shot.png"
        world0).result = .blocks [.text "No code provided"] ∧
    (handle_call_tool "run-illustrator-script" none "/tmp/shot.png"
        world0).commands = [] :=
  C6_no_code none "/tmp/shot.png" world0 (fun _ hl => nomatch hl)

/-- C7: a request naming a tool outside the registry raises a ValueError
— a dispatch-level fault — and in particular never returns a sequence of
content blocks. -/
theorem C7_unknown_tool (name : String)
    (arguments : Option (List (String × String)))
    (screenshot_path : String) (world : ExtWorld)
    (h1 : name ≠ "capture-illustrator") (h2 : name ≠ "run-illustrator-script") :
    (handle_call_tool name arguments screenshot_path world).result =
      .valueError ("Unknown tool: " ++ name) ∧
    ∀ bs, (handle_call_tool name arguments screenshot_path world).result ≠
      .blocks bs := by
  have hres : (handle_call_tool name arguments screenshot_path world).result =
      .valueError ("Unknown tool: " ++ name) := by
    unfold handle_call_tool
    rw [if_neg h1, if_neg h2]
  exact ⟨hres, fun bs hb => CallResult.noConfusion (hres ▸ hb)⟩

/-- Witness for C7 at the unregistered tool name "frobnicate". -/
theorem C7_unknown_tool_witness :
    (handle_call_tool "frobnicate" none "/tmp/shot.png" world0).result =
      .valueError ("Unknown tool: " ++ "frobnicate") ∧
    ∀ bs, (handle_call_tool "frobnicate" none "/tmp/shot.png" world0).result ≠
      .blocks bs :=
  C7_unknown_tool "frobnicate" none "/tmp/shot.png" world0 (by decide) (by decide)

/-- C5: for every script-tool invocation that reaches the external
process: on non-zero exit the result is exactly one Text block containing
the captured stderr; on zero exit it is exactly one Text block with the
success message, suffixed with "Output: " and the captured stdout exactly
when stdout is non-empty. -/
theorem C5_script_result (arguments : Option (List (String × String)))
    (screenshot_path : String) (world : ExtWorld) (code : String)
    (h : codeArg arguments = some code) :
    (world.script.returncode ≠ 0 →
      (handle_call_tool "run-illustrator-script" arguments screenshot_path
          world).result =
        .blocks [.text ("Error executing script: " ++ world.script.stderr)]) ∧
    (world.script.returncode = 0 → world.script.stdout ≠ "" →
      (handle_call_tool "run-illustrator-script" arguments screenshot_path
          world).result =
        .blocks [.text ("Script executed successfully" ++ "\nOutput: " ++
          world.script.stdout)]) ∧
    (world.script.returncode = 0 → world.script.stdout = "" →
      (handle_call_tool "run-illustrator-script" arguments screenshot_path
          world).result =
        .blocks [.text "Script executed successfully"]) := by
  have hcall : handle_call_tool "run-illustrator-script" arguments
      screenshot_path world = scriptPipeline code world.script := by
    rw [call_run, h]
  refine ⟨?_, ?_, ?_⟩
  · intro hr
    rw [hcall]
    unfold scriptPipeline
    rw [if_pos hr]
  · intro hr hs
    rw [hcall]
    unfold scriptPipeline
    rw [if_neg (by simp [hr]), if_neg hs]
  · intro hr hs
    rw [hcall]
    unfold scriptPipeline
    rw [if_neg (by simp [hr]), if_pos hs]

/-- Witness for C5: code "alert(1)" with a zero exit and stdout "ok"
yields the success message suffixed with the output. -/
theorem C5_script_result_witness :
    (handle_call_tool "run-illustrator-script" (some [("code", "alert(1)")])
        "/tmp/shot.png" worldOk).result =
      .blocks [.text ("Script executed successfully" ++ "\nOutput: " ++
        "ok")] :=
  (C5_script_result (some [("code", "alert(1)")]) "/tmp/shot.png" worldOk
      "alert(1)" (by decide)).2.1 (by decide) (by decide)

/-- Any PNG-decoder mode with an alpha channel is converted to RGB by the
guard of server.py lines 83-84. -/
lemma convertForJpeg_alpha (m : PILMode) (h : hasAlphaChannel m = true) :
    convertForJpeg m = .RGB := by
  cases m <;> simp_all [hasAlphaChannel, convertForJpeg]

/-- base64 of a non-empty byte sequence is non-empty. -/
lemma b64encode_ne_nil (l : List Nat) (h : l ≠ []) : b64encode l ≠ [] := by
  match l with
  | [] => exact absurd rfl h
  | [a] => simp [b64encode]
  | [a, b] => simp [b64encode]
  | a :: b :: c :: rest => simp [b64encode]

/-- Packing a non-empty character list into a string is non-empty. -/
lemma asString_ne_empty (l : List Char) (h : l ≠ []) : l.asString ≠ "" := by
  intro he
  exact h (congrArg String.data he)

/-- C8: for every capture-tool invocation where screencapture exits 0 and
decoding succeeds (with the JPEG encoder producing at least one byte, as
a real encoder does): the commands issued are the activation script and
screencapture on the fixed region "0,0,960,1080"; any alpha channel in
the decoded image is flattened to opaque RGB before encoding; and the
result is exactly one Image block with mime type "image/jpeg" and a
non-empty base64 payload. -/
theorem C8_capture_success (arguments : Option (List (String × String)))
    (screenshot_path : String) (world : ExtWorld)
    (hret : world.capture.captureReturncode = 0)
    (hdec : world.capture.decodeRaises = false)
    (hjpeg : world.capture.jpegBytes ≠ []) :
    (handle_call_tool "capture-illustrator" arguments screenshot_path
        world).commands =
      [activateCmd,
        ["screencapture", "-R", "0,0,960,1080", "-C", "-T", "2", "-x",
          screenshot_path]] ∧
    (hasAlphaChannel world.capture.decodedMode = true →
      (handle_call_tool "capture-illustrator" arguments screenshot_path
          world).savedMode = some .RGB) ∧
    (handle_call_tool "capture-illustrator" arguments screenshot_path
        world).result =
      .blocks [.image "image/jpeg" ((b64encode world.capture.jpegBytes).asString)] ∧
    (b64encode world.capture.jpegBytes).asString ≠ "" := by
  have hcall : handle_call_tool "capture-illustrator" arguments
      screenshot_path world =
      { result := .blocks [.image "image/jpeg"
          ((b64encode world.capture.jpegBytes).asString)]
        commands := [activateCmd, screencaptureCmd screenshot_path]
        decodeAttempted := true
        savedMode := some (convertForJpeg world.capture.decodedMode)
        tmpFileExistsAfter := some (cleanupTmp true) } := by
    rw [call_capture]
    unfold capturePipeline
    rw [if_neg (by simp [hret]), if_neg (by simp [hdec])]
  refine ⟨?_, ?_, ?_, ?_⟩
  · rw [hcall]
    rfl
  · intro ha
    rw [hcall]
    simp [convertForJpeg_alpha world.capture.decodedMode ha]
  · rw [hcall]
  · exact asString_ne_empty _ (b64encode_ne_nil _ hjpeg)


/-- Witness for C8 at world0 (screencapture exits 0, RGBA decode, JFIF
marker bytes from the encoder). -/
theorem C8_capture_success_witness :
    (handle_call_tool "capture-illustrator" none "/tmp/shot.png"
        world0).result =
      .blocks [.image "image/jpeg" ((b64encode world0.capture.jpegBytes).asString)] ∧
    (handle_call_tool "capture-illustrator" none "/tmp/shot.png"
        world0).savedMode = some .RGB :=
  ⟨(C8_capture_success none "/tmp/shot.png" world0 rfl rfl (by decide)).2.2.1,
   (C8_capture_success none "/tmp/shot.png" world0 rfl rfl (by decide)).2.1 rfl⟩

/-- C9: for every capture-tool invocation where screencapture exits
non-zero, the result is exactly one Text block reporting capture failure,
the PIL decode/re-encode step is not attempted, and the temporary file is
still cleaned up. -/
theorem C9_capture_failure (arguments : Option (List (String × String)))
    (screenshot_path : String) (world : ExtWorld)
    (h : world.capture.captureReturncode ≠ 0) :
    (handle_call_tool "capture-illustrator" arguments screenshot_path
        world).result = .blocks [.text "Failed to capture screenshot"] ∧
    (handle_call_tool "capture-illustrator" arguments screenshot_path
        world).decodeAttempted = false ∧
    (handle_call_tool "capture-illustrator" arguments screenshot_path
        world).savedMode = none ∧
    (handle_call_tool "capture-illustrator" arguments screenshot_path
        world).tmpFileExistsAfter = some false := by
  have hcall : handle_call_tool "capture-illustrator" arguments
      screenshot_path world =
      { result := .blocks [.text "Failed to capture screenshot"]
        commands := [activateCmd, screencaptureCmd screenshot_path]
        decodeAttempted := false
        savedMode := none
        tmpFileExistsAfter := some (cleanupTmp true) } := by
    rw [call_capture]
    unfold capturePipeline
    rw [if_pos h]
  rw [hcall]
  exact ⟨rfl, rfl, rfl, rfl⟩

/-- Witness for C9 at worldFail (screencapture exits 1). -/
theorem C9_capture_failure_witness :
    (handle_call_tool "capture-illustrator" none "/tmp/shot.png"
        worldFail).result = .blocks [.text "Failed to capture screenshot"] ∧
    (handle_call_tool "capture-illustrator" none "/tmp/shot.png"
        worldFail).decodeAttempted = false ∧
    (handle_call_tool "capture-illustrator" none "/tmp/shot.png"
        worldFail).savedMode = none ∧
    (handle_call_tool "capture-illustrator" none "/tmp/shot.png"
        worldFail).tmpFileExistsAfter = some false :=
  C9_capture_failure none "/tmp/shot.png" worldFail (by decide)

/-- Per-character expansion performed by the two replaces of server.py
line 112: a quote becomes backslash-quote, a newline becomes
backslash-n, every other character is kept. -/
def escapeChar (c : Char) : List Char :=
  if c = '"' then ['\\', '"'] else if c = '\n' then ['\\', 'n'] else [c]

/-- The two sequential replaces act on a cons cell as the per-character
expansion of the head followed by the escape of the tail (the first
replace inserts no newline, so the second replace commutes with it). -/
lemma escapeScript_cons (c : Char) (rest : List Char) :
    escapeScript (c :: rest) = escapeChar c ++ escapeScript rest := by
  by_cases hq : c = '"'
  · subst hq
    simp [escapeScript, pyReplace, escapeChar]
  · by_cases hn : c = '\n'
    · subst hn
      simp [escapeScript, pyReplace, escapeChar]
    · simp [escapeScript, pyReplace, escapeChar, hq, hn]

/-- Escaping a script that contains no quote and no newline is the
identity. -/
lemma escapeScript_id (s : List Char) (hq : '"' ∉ s) (hn : '\n' ∉ s) :
    escapeScript s = s := by
  induction s with
  | nil => rfl
  | cons c rest ih =>
    have h1 : c ≠ '"' := by
      rintro rfl
      exact hq (List.mem_cons_self _ _)
    have h2 : c ≠ '\n' := by
      rintro rfl
      exact hn (List.mem_cons_self _ _)
    have hq2 : '"' ∉ rest := fun hm => hq (List.mem_cons_of_mem _ hm)
    have hn2 : '\n' ∉ rest := fun hm => hn (List.mem_cons_of_mem _ hm)
    rw [escapeScript_cons]
    simp [escapeChar, h1, h2, ih hq2 hn2]

/-- A backslash-quote pair is consumed by the literal scanner. -/
lemma litScanAux_bq (l : List Char) :
    litScanAux false ('\\' :: '"' :: l) = litScanAux false l := rfl

/-- A backslash-n pair is consumed by the literal scanner. -/
lemma litScanAux_bn (l : List Char) :
    litScanAux false ('\\' :: 'n' :: l) = litScanAux false l := rfl

/-- An ordinary character (no newline, backslash or quote) is consumed by
the literal scanner. -/
lemma litScanAux_other (c : Char) (l : List Char)
    (h1 : c ≠ '\n') (h2 : c ≠ '\\') (h3 : c ≠ '"') :
    litScanAux false (c :: l) = litScanAux false l := by
  simp [litScanAux, h1, h2, h3]

/-- The escape of a backslash-free script, followed by any validly
scanning tail, scans validly: the escape only emits backslash-quote
pairs, backslash-n pairs and safe single characters. -/
lemma litScanAux_escape (s : List Char) (tail : List Char)
    (h : '\\' ∉ s) (ht : litScanAux false tail = true) :
    litScanAux false (escapeScript s ++ tail) = true := by
  induction s with
  | nil =>
    simpa [escapeScript, pyReplace] using ht
  | cons c rest ih =>
    have hc : c ≠ '\\' := by
      rintro rfl
      exact h (List.mem_cons_self _ _)
    have hr : '\\' ∉ rest := fun hm => h (List.mem_cons_of_mem _ hm)
    rw [escapeScript_cons, List.append_assoc]
    by_cases hq : c = '"'
    · subst hq
      show litScanAux false ('\\' :: '"' :: (escapeScript rest ++ tail)) = true
      rw [litScanAux_bq]
      exact ih hr
    · by_cases hn : c = '\n'
      · subst hn
        show litScanAux false ('\\' :: 'n' :: (escapeScript rest ++ tail)) = true
        rw [litScanAux_bn]
        exact ih hr
      · have he : escapeChar c = [c] := by simp [escapeChar, hq, hn]
        rw [he]
        show litScanAux false (c :: (escapeScript rest ++ tail)) = true
        rw [litScanAux_other c _ hn hc hq]
        exact ih hr

/-- C4 counterexample: the script consisting of a quote, a newline and a
backslash contains a double-quote character and a newline, yet its escape
does not embed as a valid single-line quoted literal (the untouched
trailing backslash escapes the closing quote of the template). -/
theorem C4_counterexample :
    ('"' ∈ ['"', '\n', '\\'] ∧ '\n' ∈ ['"', '\n', '\\']) ∧
    validSingleLineLiteral (escapeScript ['"', '\n', '\\']) = false := by
  decide

/-- C4 (amended): for every script containing a double-quote and a
newline but no backslash character, the escape embeds in the automation
template as a syntactically valid, single-line quoted string literal; and
for every script containing no quotes and no newlines — backslashes
allowed — the escaping step returns the script unchanged. -/
theorem C4_escaping_amended (s : List Char) :
    ('\\' ∉ s → '"' ∈ s ∧ '\n' ∈ s →
      validSingleLineLiteral (escapeScript s) = true) ∧
    ('"' ∉ s ∧ '\n' ∉ s → escapeScript s = s) := by
  constructor
  · intro hbs _
    exact litScanAux_escape s ['"'] hbs rfl
  · rintro ⟨hq, hn⟩
    exact escapeScript_id s hq hn

/-- Witness for C4: the script quote-a-newline-b escapes to a valid
single-line literal body, and the quote-free, newline-free script
a-backslash is unchanged. -/
theorem C4_escaping_amended_witness :
    validSingleLineLiteral (escapeScript ['"', 'a', '\n', 'b']) = true ∧
    escapeScript ['a', '\\'] = ['a', '\\'] :=
  ⟨(C4_escaping_amended ['"', 'a', '\n', 'b']).1 (by decide) (by decide),
   (C4_escaping_amended ['a', '\\']).2 (by decide)⟩

end Illustrator
